import Mathlib

/-!
Shallow embedding of the TrendPulse trend cache / resilient fetch core:
`src/services/geminiService.ts` (retry wrapper, category parser, fallbacks)
and the App component (cache policy, batch fetch cycle, saved topics,
preferences).  External effects (the AI call, wall-clock time, storage)
are passed explicitly as oracles / parameters.
-/

namespace TrendPulse

/-- The `Topic` record from `types.ts`. -/
structure Topic where
  id : String
  title : String
  category : String
  description : String
  imageUrl : Option String
deriving Repr, DecidableEq

/-- Error object thrown by the external AI call; the retry wrapper inspects
its `status` and `code` fields (`geminiService.ts` line 24). -/
structure ApiError where
  status : Option Nat
  code : Option Nat
deriving Repr, DecidableEq

/-- The retry condition from `geminiService.ts` line 24:
`error.status === 429 || error.code === 429 || error.status === 503`. -/
def retryable (e : ApiError) : Bool :=
  e.status = some 429 || e.code = some 429 || e.status = some 503

/-- The function `generateContentWithRetry` from `geminiService.ts` lines 16-32.
`attempts i` is the outcome of the `(i+1)`-th underlying
`ai.models.generateContent` call.  Returns the final outcome together with
the list of backoff delays (in ms) awaited before each retry.
The wait before a retry is `2000 * (4 - retries)` (2s, 4s, 6s). -/
def generateContentWithRetry (attempts : Nat → Except ApiError String)
    (retries i : Nat) : Except ApiError String × List Nat :=
  match attempts i with
    | .ok t => (.ok t, [])
    | .error e =>
      match retries with
      | 0 => (.error e, [])
      | r + 1 =>
        if retryable e then
          let p := generateContentWithRetry attempts r (i + 1)
          (p.1, 2000 * (4 - (r + 1)) :: p.2)
        else (.error e, [])

/-- Characters the JavaScript regex `.` does not match (line terminators). -/
def isLineTerminator (c : Char) : Bool :=
  c = '\n' || c = '\r' || c = '\u2028' || c = '\u2029'

def startLit : List Char := "TOPIC_START|".data

def endLit : List Char := "|TOPIC_END".data

/-- Lazy match of `(.*?)\|TOPIC_END` : shortest field (of non-terminator
characters) followed by the literal `|TOPIC_END`. -/
def matchField3 : List Char → Option (List Char)
  | [] => none
  | c :: rest =>
    if endLit.isPrefixOf (c :: rest) then some []
    else if isLineTerminator c then none
    else (matchField3 rest).map (fun s => c :: s)

/-- Lazy match of `(.*?)\|` followed by a successful `matchField3`. -/
def matchField2 : List Char → Option (List Char × List Char)
  | [] => none
  | c :: rest =>
    if c = '|' then
      match matchField3 rest with
      | some f3 => some ([], f3)
      | none => (matchField2 rest).map (fun p => (c :: p.1, p.2))
    else if isLineTerminator c then none
    else (matchField2 rest).map (fun p => (c :: p.1, p.2))

/-- Lazy match of `(.*?)\|` followed by a successful `matchField2`. -/
def matchField1 : List Char → Option (List Char × List Char × List Char)
  | [] => none
  | c :: rest =>
    if c = '|' then
      match matchField2 rest with
      | some p => some ([], p.1, p.2)
      | none => (matchField1 rest).map (fun p => (c :: p.1, p.2.1, p.2.2))
    else if isLineTerminator c then none
    else (matchField1 rest).map (fun p => (c :: p.1, p.2.1, p.2.2))

/-- JavaScript `line.match(/TOPIC_START\|(.*?)\|(.*?)\|(.*?)\|TOPIC_END/)`:
leftmost position where the literal `TOPIC_START|` matches and the rest of
the pattern completes; returns the three captured fields. -/
def matchTopicLine : List Char → Option (List Char × List Char × List Char)
  | [] => none
  | c :: rest =>
    match (if startLit.isPrefixOf (c :: rest)
           then matchField1 ((c :: rest).drop startLit.length)
           else none) with
    | some p => some p
    | none => matchTopicLine rest

/-- Holds iff the line contains a `TOPIC_START|...|...|...|TOPIC_END` match. -/
def lineMatches (l : String) : Bool :=
  (matchTopicLine l.data).isSome

/-- JavaScript `String.prototype.replace(/\s/g, '')` on a captured field. -/
def stripSpaces (s : List Char) : List Char :=
  s.filter (fun c => !c.isWhitespace)

/-- The `Topic` pushed for a matching line (`geminiService.ts` lines 57-63);
`idx` is the line index, `now` the `Date.now()` value. -/
def mkParsedTopic (pfx : String) (now idx : Nat)
    (t1 t2 t3 : List Char) : Topic :=
  { id := pfx ++ "-" ++ toString idx ++ "-" ++ toString now,
    title := (String.mk t1).trim,
    category := (String.mk t2).trim,
    description := (String.mk t3).trim,
    imageUrl := some ("https://picsum.photos/seed/"
      ++ String.mk (stripSpaces t1) ++ pfx ++ "/600/400") }

/-- JavaScript `text.split('\n')`: the list of chunks between newline
characters, including empty chunks and one trailing chunk. -/
def splitNlAux : List Char → List Char → List String
  | [], acc => [String.mk acc.reverse]
  | c :: rest, acc =>
    if c = '\n' then String.mk acc.reverse :: splitNlAux rest []
    else splitNlAux rest (c :: acc)

def splitNl (text : String) : List String :=
  splitNlAux text.data []

/-- The parse loop of `fetchTopicsByCategory` (lines 51-65): split the
response text on newlines, keep exactly the lines matching the pattern. -/
def parseTopics (text : String) (pfx : String) (now : Nat) : List Topic :=
  ((splitNl text).enum).filterMap
    (fun pr => (matchTopicLine pr.2.data).map
      (fun m => mkParsedTopic pfx now pr.1 m.1 m.2.1 m.2.2))

/-- The body of `fetchTopicsByCategory` after a successful response
(lines 47-71): zero parsed topics means fallback, otherwise at most 10. -/
def parseStage (text : String) (pfx : String) (now : Nat)
    (fallbackData : List Topic) : List Topic :=
  let topics := parseTopics text pfx now
  if topics = [] then fallbackData else topics.take 10

/-- The function `fetchTopicsByCategory` (lines 35-78) given the final outcome `resp` of
the retry wrapper: any error is caught and the fallback returned. -/
def fetchTopicsByCategory (resp : Except ApiError String) (pfx : String)
    (fallbackData : List Topic) (now : Nat) : List Topic :=
  match resp with
  | .error _ => fallbackData
  | .ok text => parseStage text pfx now fallbackData

/-- Fallback data of `fetchNewsAndPolitics` (`geminiService.ts` lines 84-91). -/
def newsFallback : List Topic :=
  [ ⟨"f-news-1", "Global Summit 2024", "Politics", "World leaders gather to discuss climate and trade.", some "https://picsum.photos/seed/Summit/600/400"⟩,
    ⟨"f-news-2", "Economic Shift", "Economy", "New inflation data impacts global markets.", some "https://picsum.photos/seed/Economy/600/400"⟩,
    ⟨"f-news-3", "Tech Regulation", "Policy", "Congress discusses new bills for AI safety.", some "https://picsum.photos/seed/Congress/600/400"⟩,
    ⟨"f-news-4", "Space Mission", "Science", "Historic landing on the lunar south pole.", some "https://picsum.photos/seed/Moon/600/400"⟩,
    ⟨"f-news-5", "Election Update", "Politics", "Latest polling numbers show a tight race.", some "https://picsum.photos/seed/Vote/600/400"⟩,
    ⟨"f-news-6", "Urban Renewal", "Infrastructure", "Major cities announce green energy plans.", some "https://picsum.photos/seed/City/600/400"⟩ ]

/-- Fallback data of `fetchMusicTrends` (lines 98-105). -/
def musicFallback : List Topic :=
  [ ⟨"f-music-1", "Pop Star Return", "Mainstream", "Legendary artist announces surprise tour.", some "https://picsum.photos/seed/Microphone/600/400"⟩,
    ⟨"f-music-2", "Indie Breakout", "Alternative", "Underground band hits mainstream success.", some "https://picsum.photos/seed/Guitar/600/400"⟩,
    ⟨"f-music-3", "Award Snubs", "Awards", "Fans outrage over recent nominations.", some "https://picsum.photos/seed/Trophy/600/400"⟩,
    ⟨"f-music-4", "Festival Lineup", "Live", "Summer festival headliners revealed.", some "https://picsum.photos/seed/Festival/600/400"⟩,
    ⟨"f-music-5", "Country Crossover", "Country", "Country hit goes viral globally.", some "https://picsum.photos/seed/Banjo/600/400"⟩,
    ⟨"f-music-6", "Supergroup Formed", "Rock", "Famous rockers unite for new project.", some "https://picsum.photos/seed/Drum/600/400"⟩ ]

/-- Fallback data of `fetchBillboardTrends` (lines 112-119). -/
def billboardFallback : List Topic :=
  [ ⟨"f-bb-1", "New #1 Hit", "Hot 100", "The song that just dethroned the reigning champion.", some "https://picsum.photos/seed/Chart1/600/400"⟩,
    ⟨"f-bb-2", "Record Breaker", "History", "Artist breaks record for most weeks at top.", some "https://picsum.photos/seed/Record/600/400"⟩,
    ⟨"f-bb-3", "Album Debut", "Billboard 200", "Massive first-week sales numbers released.", some "https://picsum.photos/seed/Album/600/400"⟩,
    ⟨"f-bb-4", "Sleeper Hit", "Rising", "Song from last year suddenly enters Top 10.", some "https://picsum.photos/seed/ArrowUp/600/400"⟩,
    ⟨"f-bb-5", "Global 200", "World", "K-Pop group dominates global streaming charts.", some "https://picsum.photos/seed/GlobeMusic/600/400"⟩,
    ⟨"f-bb-6", "Longest Running", "Legacy", "Track spends 52 weeks on the chart.", some "https://picsum.photos/seed/Calendar/600/400"⟩ ]

/-- Fallback data of `fetchHipHopTrends` (lines 126-133). -/
def hipHopFallback : List Topic :=
  [ ⟨"f-hh-1", "Viral Rap Beef", "Hip-Hop", "Diss tracks exchange heats up between titans.", some "https://picsum.photos/seed/Rap/600/400"⟩,
    ⟨"f-hh-2", "New Album Drop", "Release", "Highly anticipated album dominates streaming.", some "https://picsum.photos/seed/Vinyl/600/400"⟩,
    ⟨"f-hh-3", "Producer Tag", "Production", "The producer tag everyone is hearing right now.", some "https://picsum.photos/seed/Beat/600/400"⟩,
    ⟨"f-hh-4", "Fashion Week", "Culture", "Rappers taking over the runway in Paris.", some "https://picsum.photos/seed/Fashion/600/400"⟩,
    ⟨"f-hh-5", "Underground King", "Rising", "SoundCloud rapper breaks into mainstream.", some "https://picsum.photos/seed/Mic/600/400"⟩,
    ⟨"f-hh-6", "Classic Sample", "History", "90s hit sampled in top charting song.", some "https://picsum.photos/seed/Boombox/600/400"⟩ ]

/-- Fallback data of `fetchTechTrends` (lines 140-147). -/
def techFallback : List Topic :=
  [ ⟨"f-tech-1", "Next-Gen Models", "AI", "The latest LLM benchmarks shatter expectations.", some "https://picsum.photos/seed/Robot/600/400"⟩,
    ⟨"f-tech-2", "Dev Tools 2.0", "Software", "How coding assistants are changing development.", some "https://picsum.photos/seed/Code/600/400"⟩,
    ⟨"f-tech-3", "Quantum Leap", "Innovation", "New breakthrough in quantum computing stability.", some "https://picsum.photos/seed/Quantum/600/400"⟩,
    ⟨"f-tech-4", "VR Headset War", "Hardware", "Competitors launch affordable mixed reality gear.", some "https://picsum.photos/seed/VR/600/400"⟩,
    ⟨"f-tech-5", "Open Source Wins", "Community", "Major corporation open sources key library.", some "https://picsum.photos/seed/Linux/600/400"⟩,
    ⟨"f-tech-6", "Cybersecurity Alert", "Security", "New zero-day vulnerability affects millions.", some "https://picsum.photos/seed/Lock/600/400"⟩ ]

/-- Fallback data of `fetchMemeTrends` (lines 154-161). -/
def memeFallback : List Topic :=
  [ ⟨"f-meme-1", "Skibidi Variants", "Viral", "The endless evolution of the toilet head phenomenon.", some "https://picsum.photos/seed/Toilet/600/400"⟩,
    ⟨"f-meme-2", "Fanum Tax", "Slang", "The internet culture of food sharing and theft.", some "https://picsum.photos/seed/Food/600/400"⟩,
    ⟨"f-meme-3", "Corecore", "Aesthetic", "Nihilistic video collages taking over TikTok.", some "https://picsum.photos/seed/Mood/600/400"⟩,
    ⟨"f-meme-4", "NPC Streaming", "Live", "Creators acting like video game characters.", some "https://picsum.photos/seed/NPC/600/400"⟩,
    ⟨"f-meme-5", "Grimace Shake", "Throwback", "The purple drink horror trend returns.", some "https://picsum.photos/seed/Shake/600/400"⟩,
    ⟨"f-meme-6", "Roman Empire", "Discussion", "How often do men think about the Roman Empire?", some "https://picsum.photos/seed/Roman/600/400"⟩ ]

/-- Fallback data of `fetchGamingTrends` (lines 168-175). -/
def gamingFallback : List Topic :=
  [ ⟨"f-game-1", "GTA VI Leaks", "Rumor", "Analyzing the latest frame-by-frame details.", some "https://picsum.photos/seed/GTA/600/400"⟩,
    ⟨"f-game-2", "Esports Finals", "Esports", "Record-breaking viewership at the latest major.", some "https://picsum.photos/seed/Esports/600/400"⟩,
    ⟨"f-game-3", "Indie Gems", "Release", "The steam hit everyone is playing this week.", some "https://picsum.photos/seed/Indie/600/400"⟩,
    ⟨"f-game-4", "Console Refresh", "Hardware", "Rumors of a \"Pro\" console upgrade swirl.", some "https://picsum.photos/seed/Console/600/400"⟩,
    ⟨"f-game-5", "Speedrun Record", "Community", "Classic game beaten in under 5 minutes.", some "https://picsum.photos/seed/Timer/600/400"⟩,
    ⟨"f-game-6", "RPG Expansion", "DLC", "Massive update drops for popular RPG.", some "https://picsum.photos/seed/Dragon/600/400"⟩ ]

/-- Fallback data of `fetchLandscapeTrends` (lines 182-189). -/
def landscapeFallback : List Topic :=
  [ ⟨"f-land-1", "Northern Lights", "Phenomenon", "Solar storms create spectacular views globally.", some "https://picsum.photos/seed/Aurora/600/400"⟩,
    ⟨"f-land-2", "Hidden Beaches", "Travel", "The secret summer destinations trending now.", some "https://picsum.photos/seed/Beach/600/400"⟩,
    ⟨"f-land-3", "Volcanic Eruption", "News", "Live streams of lava flows captivate millions.", some "https://picsum.photos/seed/Volcano/600/400"⟩,
    ⟨"f-land-4", "Autumn Foliage", "Season", "Best spots to see the leaves change color.", some "https://picsum.photos/seed/Forest/600/400"⟩,
    ⟨"f-land-5", "Desert Bloom", "Rare", "Rare rainfall creates flowers in the desert.", some "https://picsum.photos/seed/Desert/600/400"⟩,
    ⟨"f-land-6", "Mountain Pass", "Adventure", "Dangerous but beautiful road opens for season.", some "https://picsum.photos/seed/Mountain/600/400"⟩ ]

/-- Fallback data of `fetchWildlifeTrends` (lines 196-203). -/
def wildlifeFallback : List Topic :=
  [ ⟨"f-wild-1", "Viral Pygmy Hippo", "Zoo", "The internet falls in love with a new zoo icon.", some "https://picsum.photos/seed/Hippo/600/400"⟩,
    ⟨"f-wild-2", "Rare Bird Sighting", "Discovery", "Extinct bird possibly spotted in rainforest.", some "https://picsum.photos/seed/Bird/600/400"⟩,
    ⟨"f-wild-3", "Panda Return", "Conservation", "Pandas arriving at new sanctuary.", some "https://picsum.photos/seed/Panda/600/400"⟩,
    ⟨"f-wild-4", "Cat Distribution", "Viral", "How stray cats choose their owners.", some "https://picsum.photos/seed/Cat/600/400"⟩,
    ⟨"f-wild-5", "Whale Migration", "Ocean", "Massive pod sighted near coast.", some "https://picsum.photos/seed/Whale/600/400"⟩,
    ⟨"f-wild-6", "Dog Hero", "News", "Local dog saves family from fire.", some "https://picsum.photos/seed/Dog/600/400"⟩ ]

/-- The nine category sections of `SECTIONS_CONFIG` / `CachedData.data`. -/
inductive Section
  | news | tech | music | billboard | hiphop | memes | gaming
  | landscapes | wildlife
deriving Repr, DecidableEq

/-- The `categoryPrefix` argument each `fetchXxxTrends` wrapper passes to
`fetchTopicsByCategory`. -/
def pfxOf : Section → String
  | .news => "news"
  | .tech => "tech"
  | .music => "music"
  | .billboard => "billboard"
  | .hiphop => "hiphop"
  | .memes => "meme"
  | .gaming => "gaming"
  | .landscapes => "landscape"
  | .wildlife => "wildlife"

/-- The `fallbackData` argument each `fetchXxxTrends` wrapper passes. -/
def fallbackOf : Section → List Topic
  | .news => newsFallback
  | .tech => techFallback
  | .music => musicFallback
  | .billboard => billboardFallback
  | .hiphop => hipHopFallback
  | .memes => memeFallback
  | .gaming => gamingFallback
  | .landscapes => landscapeFallback
  | .wildlife => wildlifeFallback

/-- The per-category topic lists: the nine `useState` lists of `App`, and
also the `data` field of `CachedData`. -/
structure TopicSets where
  news : List Topic
  tech : List Topic
  music : List Topic
  billboard : List Topic
  hiphop : List Topic
  memes : List Topic
  gaming : List Topic
  landscapes : List Topic
  wildlife : List Topic
deriving Repr, DecidableEq

def TopicSets.get (s : TopicSets) : Section → List Topic
  | .news => s.news
  | .tech => s.tech
  | .music => s.music
  | .billboard => s.billboard
  | .hiphop => s.hiphop
  | .memes => s.memes
  | .gaming => s.gaming
  | .landscapes => s.landscapes
  | .wildlife => s.wildlife

/-- The interface `CachedData` from the App component (lines 31-44). -/
structure CachedData where
  timestamp : Nat
  data : TopicSets
deriving Repr, DecidableEq

/-- The constant `REFRESH_INTERVAL = 8 * 60 * 60 * 1000` (8 hours in ms). -/
def refreshInterval : Nat := 8 * 60 * 60 * 1000

/-- The persisted blob under `STORAGE_KEY`: absent, present but failing
`JSON.parse` (or lacking the expected shape), or a parseable snapshot. -/
def StorageBlob := Option (Except Unit CachedData)

instance : DecidableEq (Except Unit CachedData) := fun a b =>
  match a, b with
  | .ok x, .ok y =>
    if h : x = y then isTrue (by rw [h]) else isFalse (by simp [h])
  | .error x, .error y => isTrue (by cases x; cases y; rfl)
  | .ok _, .error _ => isFalse (by simp)
  | .error _, .ok _ => isFalse (by simp)

/-- Relevant state of the `App` component: the nine topic lists, the
`error`, `lastUpdated`, `loading`, `refreshing` state hooks, and the
persisted cache blob. -/
structure AppState where
  sets : TopicSets
  error : Option String
  lastUpdated : Option Nat
  loading : Bool
  refreshing : Bool
  storage : Option (Except Unit CachedData)
deriving Repr, DecidableEq

/-- Observable external actions of a fetch cycle: a group of concurrently
issued category requests, or an awaited delay. -/
inductive FetchEvent
  | fetchGroup (cats : List Section)
  | wait (ms : Nat)
deriving Repr, DecidableEq

/-- Environment of one fetch cycle: `resp c` is the final outcome of the
retry wrapper for category `c`, and `fault = some k` injects an exception
thrown/rejected during batch `k` (before that batch's state setters run),
modelling a cycle that fails at some stage. -/
structure FetchEnv where
  resp : Section → Except ApiError String
  fault : Option (Fin 4)

/-- The category fetch `fetchXxxTrends` for section `c` (each is
`fetchTopicsByCategory` at its own prompt, prefix and fallback). -/
def fetchCat (env : FetchEnv) (c : Section) (now : Nat) : List Topic :=
  fetchTopicsByCategory (env.resp c) (pfxOf c) (fallbackOf c) now

/-- The `catch`/`finally` of `loadTopics` (lines 232-238): set the error
banner, clear `loading`/`refreshing`. -/
def catchCycle (st : AppState) : AppState :=
  { st with
    error := some "Failed to load trending topics. Please check your connection.",
    loading := false, refreshing := false }

/-- The `try` block of `loadTopics` (lines 180-238): four sequential
batches of category fetches with a 1.5 s wait between batches, per-batch
state updates, then `lastUpdated` and the persisted snapshot.  Returns the
new state and the trace of issued groups / awaited delays. -/
def runFetchCycle (env : FetchEnv) (now : Nat) (st : AppState) :
    AppState × List FetchEvent :=
  let ev1 : List FetchEvent := [.fetchGroup [.news, .tech]]
  if env.fault = some 0 then (catchCycle st, ev1) else
  let st1 := { st with sets := { st.sets with
    news := fetchCat env .news now, tech := fetchCat env .tech now } }
  let ev2 := ev1 ++ [.wait 1500, .fetchGroup [.music, .billboard, .hiphop]]
  if env.fault = some 1 then (catchCycle st1, ev2) else
  let st2 := { st1 with sets := { st1.sets with
    music := fetchCat env .music now,
    billboard := fetchCat env .billboard now,
    hiphop := fetchCat env .hiphop now } }
  let ev3 := ev2 ++ [.wait 1500, .fetchGroup [.memes, .gaming]]
  if env.fault = some 2 then (catchCycle st2, ev3) else
  let st3 := { st2 with sets := { st2.sets with
    memes := fetchCat env .memes now, gaming := fetchCat env .gaming now } }
  let ev4 := ev3 ++ [.wait 1500, .fetchGroup [.landscapes, .wildlife]]
  if env.fault = some 3 then (catchCycle st3, ev4) else
  let st4 := { st3 with sets := { st3.sets with
    landscapes := fetchCat env .landscapes now,
    wildlife := fetchCat env .wildlife now } }
  ({ st4 with
      lastUpdated := some now,
      storage := some (.ok { timestamp := now, data := st4.sets }),
      loading := false, refreshing := false }, ev4)

/-- The function `loadTopics(forceRefresh)` (lines 143-239).  `now` is `Date.now()`.
If not forced, a parseable snapshot younger than 8 hours is restored with
no external calls; otherwise (absent, malformed, stale, or forced) the
four-batch fetch cycle runs. -/
def loadTopics (force : Bool) (env : FetchEnv) (now : Nat)
    (st0 : AppState) : AppState × List FetchEvent :=
  let st := { st0 with error := none }
  if force = false then
    match st.storage with
    | some (Except.ok d) =>
      if now - d.timestamp < refreshInterval then
        let restored := { st with
          sets := d.data,
          lastUpdated := some d.timestamp,
          loading := false, refreshing := false }
        (restored, [])
      else runFetchCycle env now { st with loading := true }
    | _ => runFetchCycle env now { st with loading := true }
  else runFetchCycle env now st

/-- One tick of the auto-refresh interval (lines 247-259): the JS guard
`if (lastUpdated)` is a truthiness check, false for both null and 0, so a
load is triggered only when `lastUpdated` is a nonzero timestamp and its
age meets the threshold; the returned value `some b` records an invocation
of `loadTopics` with `forceRefresh = b`, `none` that nothing was
triggered. -/
def autoRefreshTick (lastUpdated : Option Nat) (now : Nat) : Option Bool :=
  match lastUpdated with
  | some t =>
    if t ≠ 0 then
      if now - t ≥ refreshInterval then some true else none
    else none
  | none => none

/-- The handler `toggleSaveTopic` (lines 128-137) acting on the saved-topics list. -/
def toggleSaveTopic (topic : Topic) (prev : List Topic) : List Topic :=
  if prev.any (fun t => t.title = topic.title) then
    prev.filter (fun t => t.title ≠ topic.title)
  else
    topic :: prev

/-- The no-duplicate-title invariant of the saved collection. -/
def noDupTitles (l : List Topic) : Prop :=
  (l.map Topic.title).Nodup

/-- The nine section ids of `SECTIONS_CONFIG`. -/
def sectionIds : List String :=
  ["news", "tech", "music", "billboard", "hiphop", "memes", "gaming",
   "landscapes", "wildlife"]

/-- First-key lookup in a JS-object-as-association-list. -/
def lookupKey (k : String) : List (String × Bool) → Option Bool
  | [] => none
  | (k', v) :: rest => if k' = k then some v else lookupKey k rest

/-- The defaults accumulated over `SECTIONS_CONFIG` by the reduce at
line 84: every known section id mapped to `true`. -/
def prefsDefaults : List (String × Bool) :=
  sectionIds.map (fun s => (s, true))

/-- JS object spread `{ ...base, ...extra }`: keys of `base` first (values
overridden by `extra` when present), then the keys of `extra` not in
`base`, in order. -/
def spreadMerge (base extra : List (String × Bool)) :
    List (String × Bool) :=
  base.map (fun p => (p.1, (lookupKey p.1 extra).getD p.2))
    ++ extra.filter (fun p => lookupKey p.1 base = none)

/-- The `visibleSections` initializer (lines 82-92): absent or malformed
preferences give the defaults, a parsed blob is spread over the defaults. -/
def loadPrefs (saved : Option (Except Unit (List (String × Bool)))) :
    List (String × Bool) :=
  match saved with
  | some (Except.ok parsed) => spreadMerge prefsDefaults parsed
  | _ => prefsDefaults

/-- Which of the four sequential batches of `loadTopics` fetches a given
section (lines 184-220). -/
def batchOf : Section → Nat
  | .news => 0
  | .tech => 0
  | .music => 1
  | .billboard => 1
  | .hiphop => 1
  | .memes => 2
  | .gaming => 2
  | .landscapes => 3
  | .wildlife => 3

section Theorems

/-- C7 counterexample: the claim says a double invocation of
`toggleSaveTopic` with the same title returns the collection to its prior
state.  Starting from a collection where the matching title is not at the
head, the first invocation removes it and the second prepends it, changing
the order: the result differs from the prior state. -/
theorem c7_counterexample :
    toggleSaveTopic ⟨"t1", "T", "c", "d", none⟩
        (toggleSaveTopic ⟨"t1", "T", "c", "d", none⟩
          [⟨"a1", "A", "c", "d", none⟩, ⟨"t1", "T", "c", "d", none⟩])
      ≠ [⟨"a1", "A", "c", "d", none⟩, ⟨"t1", "T", "c", "d", none⟩] := by
  decide

/-- C7 (amended): `toggleSaveTopic` removes all entries sharing the
topic's title when one is present and otherwise prepends the topic;
invoking it twice restores the prior state whenever the title was absent;
and the no-two-entries-share-a-title invariant is preserved by every
invocation. -/
theorem c7_toggle_saved (topic : Topic) (prev : List Topic) :
    (prev.any (fun t => t.title = topic.title) = true →
      toggleSaveTopic topic prev
        = prev.filter (fun t => t.title ≠ topic.title)) ∧
    (prev.any (fun t => t.title = topic.title) = false →
      toggleSaveTopic topic prev = topic :: prev) ∧
    (prev.any (fun t => t.title = topic.title) = false →
      toggleSaveTopic topic (toggleSaveTopic topic prev) = prev) ∧
    (noDupTitles prev → noDupTitles (toggleSaveTopic topic prev)) := by
  have habs : prev.any (fun t => t.title = topic.title) = false →
      ∀ t ∈ prev, t.title ≠ topic.title := by
    intro h t ht
    have := List.any_eq_false.mp h t ht
    simpa using this
  refine ⟨?_, ?_, ?_, ?_⟩
  · intro h
    simp [toggleSaveTopic, h]
  · intro h
    simp [toggleSaveTopic, h]
  · intro h
    have h1 : toggleSaveTopic topic prev = topic :: prev := by
      simp [toggleSaveTopic, h]
    rw [h1]
    have h2 : (topic :: prev).any (fun t => t.title = topic.title) = true := by
      simp
    simp only [toggleSaveTopic, h2, if_true]
    have : (topic :: prev).filter (fun t => t.title ≠ topic.title)
        = prev.filter (fun t => t.title ≠ topic.title) := by
      simp [List.filter_cons]
    rw [this]
    exact List.filter_eq_self.mpr (fun t ht => by simpa using habs h t ht)
  · intro hnd
    by_cases h : prev.any (fun t => t.title = topic.title) = true
    · rw [(by simp [toggleSaveTopic, h] :
        toggleSaveTopic topic prev
          = prev.filter (fun t => t.title ≠ topic.title))]
      exact List.Nodup.sublist
        (List.Sublist.map Topic.title (List.filter_sublist prev)) hnd
    · have h' : prev.any (fun t => t.title = topic.title) = false := by
        simpa using h
      rw [(by simp [toggleSaveTopic, h'] :
        toggleSaveTopic topic prev = topic :: prev)]
      refine List.nodup_cons.mpr ⟨?_, hnd⟩
      intro hmem
      obtain ⟨t, ht, htit⟩ := List.mem_map.mp hmem
      exact habs h' t ht htit

/-- C7 witness: a concrete double invocation from a collection not
containing the title restores it. -/
theorem c7_toggle_saved_witness :
    toggleSaveTopic ⟨"t1", "T", "c", "d", none⟩
        (toggleSaveTopic ⟨"t1", "T", "c", "d", none⟩
          [⟨"a1", "A", "c", "d", none⟩])
      = [⟨"a1", "A", "c", "d", none⟩] :=
  (c7_toggle_saved ⟨"t1", "T", "c", "d", none⟩
    [⟨"a1", "A", "c", "d", none⟩]).2.2.1 (by decide)

/-- C4 counterexample: at a completed load with nonzero timestamp 1 and a
tick exactly the threshold later, the 60-second staleness check does fire,
but it invokes `loadTopics(true)` — a forced refresh — not the unforced
`loadTopics(false)` the claim states. -/
theorem c4_counterexample :
    (autoRefreshTick (some 1) (1 + refreshInterval)).isSome = true ∧
      autoRefreshTick (some 1) (1 + refreshInterval) ≠ some false := by
  constructor
  · decide
  · decide

/-- C4 (amended): the staleness tick triggers a load exactly when a
previous load has completed with a nonzero (truthy) timestamp and its age
meets/exceeds the 8-hour threshold, and every load it triggers is a forced
refresh (`forceRefresh = true`), never an unforced one. -/
theorem c4_auto_refresh_forced (lu : Option Nat) (now : Nat) :
    ((autoRefreshTick lu now).isSome = true ↔
      ∃ t, lu = some t ∧ t ≠ 0 ∧ refreshInterval ≤ now - t) ∧
    (autoRefreshTick lu now = some true ∨ autoRefreshTick lu now = none) := by
  constructor
  · constructor
    · intro h
      match hl : lu with
      | none => simp [autoRefreshTick] at h
      | some t =>
        by_cases h0 : t = 0
        · subst h0
          simp [autoRefreshTick] at h
        · by_cases ha : now - t ≥ refreshInterval
          · exact ⟨t, rfl, h0, ha⟩
          · simp [autoRefreshTick, h0, ha] at h
    · rintro ⟨t, rfl, h0, ht⟩
      simp [autoRefreshTick, h0, ht]
  · match hl : lu with
    | none => right; simp [autoRefreshTick]
    | some t =>
      by_cases h0 : t = 0
      · subst h0
        right
        simp [autoRefreshTick]
      · by_cases ha : now - t ≥ refreshInterval
        · left; simp [autoRefreshTick, h0, ha]
        · right; simp [autoRefreshTick, h0, ha]

/-- C4 witness: a concrete stale tick at a nonzero timestamp fires and is
forced. -/
theorem c4_auto_refresh_forced_witness :
    (autoRefreshTick (some 1) (1 + refreshInterval)).isSome = true :=
  (c4_auto_refresh_forced (some 1) (1 + refreshInterval)).1.mpr
    ⟨1, rfl, by decide, by decide⟩

theorem lookupKey_append (k : String) (xs ys : List (String × Bool)) :
    lookupKey k (xs ++ ys)
      = match lookupKey k xs with
        | some v => some v
        | none => lookupKey k ys := by
  induction xs with
  | nil => simp [lookupKey]
  | cons p rest ih =>
    by_cases h : p.1 = k
    · simp [lookupKey, h]
    · simpa [lookupKey, h] using ih

theorem lookupKey_map_merge (k : String) (extra : List (String × Bool)) :
    ∀ base : List (String × Bool),
      lookupKey k (base.map (fun p => (p.1, (lookupKey p.1 extra).getD p.2)))
        = match lookupKey k base with
          | some v => some ((lookupKey k extra).getD v)
          | none => none
  | [] => by simp [lookupKey]
  | p :: rest => by
    by_cases h : p.1 = k
    · subst h; simp [lookupKey]
    · simp [lookupKey, h, lookupKey_map_merge k extra rest]

theorem lookupKey_filter (k : String) (p : String × Bool → Bool)
    (hp : ∀ v, p (k, v) = true) :
    ∀ l : List (String × Bool),
      lookupKey k (l.filter p) = lookupKey k l
  | [] => by simp [lookupKey]
  | q :: rest => by
    by_cases h : q.1 = k
    · have hq : p q = true := by
        have := hp q.2
        rwa [show (k, q.2) = q by rw [← h]] at this
      simp [List.filter_cons, hq, lookupKey, h, lookupKey_filter k p hp rest]
    · by_cases hq : p q = true
      · simp [List.filter_cons, hq, lookupKey, h,
          lookupKey_filter k p hp rest]
      · simp [List.filter_cons, hq, lookupKey, h,
          lookupKey_filter k p hp rest]

theorem lookupKey_spreadMerge (k : String)
    (base extra : List (String × Bool)) :
    lookupKey k (spreadMerge base extra)
      = match lookupKey k base with
        | some v => some ((lookupKey k extra).getD v)
        | none => lookupKey k extra := by
  rw [spreadMerge, lookupKey_append, lookupKey_map_merge k extra base]
  cases hb : lookupKey k base with
  | some v => rfl
  | none =>
    exact lookupKey_filter k _ (fun v => by simp [hb]) extra

/-- C8 counterexample: the claim says unknown keys in the persisted
preferences blob are dropped, so the loaded map contains no unknown keys.
Loading a blob containing the single unknown key "foo" yields a map in
which "foo" is still present (the spread keeps it), while the missing
known key "tech" does default to true. -/
theorem c8_counterexample :
    lookupKey "foo" (loadPrefs (some (Except.ok [("foo", false)])))
        ≠ none ∧
      lookupKey "tech" (loadPrefs (some (Except.ok [("foo", false)])))
        = some true := by
  constructor
  · decide
  · decide

/-- C8 (amended): loading preferences merges the parsed blob over the
defaults: every known section key missing from the blob defaults to
visible=true, every key present in the blob (known or unknown) keeps its
saved value — unknown keys are retained, not dropped — and an absent or
malformed blob yields the defaults. -/
theorem c8_prefs_load (parsed : List (String × Bool)) :
    (∀ k, k ∈ sectionIds → lookupKey k parsed = none →
      lookupKey k (loadPrefs (some (Except.ok parsed))) = some true) ∧
    (∀ k v, lookupKey k parsed = some v →
      lookupKey k (loadPrefs (some (Except.ok parsed))) = some v) ∧
    loadPrefs none = prefsDefaults ∧
    loadPrefs (some (Except.error ())) = prefsDefaults := by
  have hdef : ∀ k, k ∈ sectionIds → lookupKey k prefsDefaults = some true := by
    intro k hk
    fin_cases hk <;> decide
  refine ⟨?_, ?_, rfl, rfl⟩
  · intro k hk hnone
    rw [loadPrefs, lookupKey_spreadMerge, hdef k hk, hnone]
    rfl
  · intro k v hv
    rw [loadPrefs, lookupKey_spreadMerge]
    cases hb : lookupKey k prefsDefaults with
    | some w => simp [hv]
    | none => exact hv

/-- C8 witness: a concrete blob missing "tech" loads it as visible. -/
theorem c8_prefs_load_witness :
    lookupKey "tech" (loadPrefs (some (Except.ok [("foo", false)])))
      = some true :=
  (c8_prefs_load [("foo", false)]).1 "tech" (by decide) (by decide)

/-- C10: every category fetch returns between 1 and 10 topics, whatever
the response or error outcome, because all nine static fallback lists have
exactly 6 entries and a non-empty parse is truncated to 10. -/
theorem c10_category_fetch_nonempty (c : Section)
    (resp : Except ApiError String) (now : Nat) :
    (fallbackOf c).length = 6 ∧
    1 ≤ (fetchTopicsByCategory resp (pfxOf c) (fallbackOf c) now).length ∧
    (fetchTopicsByCategory resp (pfxOf c) (fallbackOf c) now).length
      ≤ 10 := by
  have hf : (fallbackOf c).length = 6 := by cases c <;> rfl
  refine ⟨hf, ?_⟩
  cases resp with
  | error e =>
    rw [show fetchTopicsByCategory (Except.error e) (pfxOf c)
        (fallbackOf c) now = fallbackOf c from rfl, hf]
    omega
  | ok text =>
    rw [show fetchTopicsByCategory (Except.ok text) (pfxOf c)
        (fallbackOf c) now
        = parseStage text (pfxOf c) now (fallbackOf c) from rfl]
    by_cases hp : parseTopics text (pfxOf c) now = []
    · rw [parseStage]
      simp only [hp, if_true]
      rw [hf]; omega
    · rw [parseStage]
      simp only [hp, if_false, if_neg hp]
      have hlen : 0 < (parseTopics text (pfxOf c) now).length :=
        List.length_pos.mpr hp
      rw [List.length_take]
      omega

theorem length_filterMap_isSome {α β γ : Type} (h : α → Option β)
    (g : α → β → γ) :
    ∀ l : List α,
      (l.filterMap (fun a => (h a).map (g a))).length
        = (l.filter (fun a => (h a).isSome)).length
  | [] => by simp
  | a :: l => by
    cases hh : h a <;>
      simp [List.filterMap_cons, List.filter_cons, hh,
        length_filterMap_isSome h g l]

theorem length_filter_enumFrom {α : Type} (q : α → Bool) :
    ∀ (n : Nat) (l : List α),
      ((List.enumFrom n l).filter (fun pr => q pr.2)).length
        = (l.filter q).length
  | _, [] => by simp
  | n, a :: l => by
    by_cases hq : q a <;>
      simp [List.enumFrom, List.filter_cons, hq,
        length_filter_enumFrom q (n + 1) l]

/-- C3: the category parser keeps exactly the lines matching the
TOPIC_START/TOPIC_END pattern (one record per matching line, non-matching
lines discarded), a zero-record parse yields the fallback instead of an
error, and a non-empty parse is truncated to at most 10 records. -/
theorem c3_parse_rules (text pfx : String) (now : Nat)
    (fallbackData : List Topic) :
    (parseTopics text pfx now).length
        = ((splitNl text).filter lineMatches).length ∧
    (parseTopics text pfx now = [] →
      parseStage text pfx now fallbackData = fallbackData) ∧
    (parseTopics text pfx now ≠ [] →
      parseStage text pfx now fallbackData
          = (parseTopics text pfx now).take 10 ∧
        (parseStage text pfx now fallbackData).length ≤ 10) := by
  refine ⟨?_, ?_, ?_⟩
  · rw [parseTopics,
      length_filterMap_isSome (fun pr : Nat × String => matchTopicLine pr.2.data)
        (fun pr m => mkParsedTopic pfx now pr.1 m.1 m.2.1 m.2.2)
        ((splitNl text).enum)]
    rw [show (splitNl text).enum = List.enumFrom 0 (splitNl text) from rfl]
    exact length_filter_enumFrom lineMatches 0 (splitNl text)
  · intro h
    rw [parseStage]
    simp only [h, if_true]
  · intro h
    simp only [parseStage]
    rw [if_neg h]
    refine ⟨rfl, ?_⟩
    rw [List.length_take]
    omega

/-- C3 witness: a concrete matching response parses and is truncated. -/
theorem c3_parse_rules_witness :
    parseStage "TOPIC_START|A|B|C|TOPIC_END" "news" 0 newsFallback
      = (parseTopics "TOPIC_START|A|B|C|TOPIC_END" "news" 0).take 10 :=
  ((c3_parse_rules "TOPIC_START|A|B|C|TOPIC_END" "news" 0 newsFallback).2.2
    (by decide)).1

theorem gcwr_step_retry (attempts : Nat → Except ApiError String)
    (r i : Nat) (e : ApiError) (h : attempts i = Except.error e)
    (hr : retryable e = true) :
    generateContentWithRetry attempts (r + 1) i
      = ((generateContentWithRetry attempts r (i + 1)).1,
         2000 * (4 - (r + 1))
           :: (generateContentWithRetry attempts r (i + 1)).2) := by
  rw [generateContentWithRetry.eq_def, h]
  simp [hr]

theorem gcwr_step_stop (attempts : Nat → Except ApiError String)
    (i : Nat) (e : ApiError) (h : attempts i = Except.error e) :
    generateContentWithRetry attempts 0 i = (Except.error e, []) := by
  rw [generateContentWithRetry.eq_def, h]

/-- C2: an external call that keeps signalling a retryable error
(status 429, code 429, or status 503) is retried exactly 3 additional
times with backoff delays 2000 ms, 4000 ms, 6000 ms and still ends in an
error; and whenever the retry wrapper ends in an error — retryable or not,
exhausted or immediate — the category fetch returns the static fallback
instead of propagating it. -/
theorem c2_retry_policy (attempts : Nat → Except ApiError String)
    (pfx : String) (fallbackData : List Topic) (now : Nat) :
    ((∀ i, ∃ e, attempts i = Except.error e ∧ retryable e = true) →
      (generateContentWithRetry attempts 3 0).2 = [2000, 4000, 6000] ∧
      ∃ e, (generateContentWithRetry attempts 3 0).1 = Except.error e) ∧
    (∀ e, (generateContentWithRetry attempts 3 0).1 = Except.error e →
      fetchTopicsByCategory (generateContentWithRetry attempts 3 0).1
        pfx fallbackData now = fallbackData) := by
  constructor
  · intro h
    obtain ⟨e0, h0, r0⟩ := h 0
    obtain ⟨e1, h1, r1⟩ := h 1
    obtain ⟨e2, h2, r2⟩ := h 2
    obtain ⟨e3, h3, r3⟩ := h 3
    have s3 := gcwr_step_retry attempts 2 0 e0 h0 r0
    have s2 := gcwr_step_retry attempts 1 1 e1 h1 r1
    have s1 := gcwr_step_retry attempts 0 2 e2 h2 r2
    have s0 := gcwr_step_stop attempts 3 e3 h3
    rw [s3, s2, s1, s0]
    exact ⟨by norm_num, ⟨e3, rfl⟩⟩
  · intro e he
    rw [he]
    rfl

/-- C2 witness: a concrete always-429 oracle is retried three times with
the 2s, 4s, 6s delays. -/
theorem c2_retry_policy_witness :
    (generateContentWithRetry
        (fun _ => Except.error ⟨some 429, none⟩) 3 0).2
      = [2000, 4000, 6000] :=
  ((c2_retry_policy (fun _ => Except.error ⟨some 429, none⟩)
      "news" newsFallback 0).1
    (fun _ => ⟨⟨some 429, none⟩, rfl, rfl⟩)).1

theorem runFetchCycle_trace_ne_nil (env : FetchEnv) (now : Nat)
    (st : AppState) : (runFetchCycle env now st).2 ≠ [] := by
  rcases hf : env.fault with _ | k
  · simp [runFetchCycle, hf]
  · fin_cases k <;> simp [runFetchCycle, hf]

/-- C6: a faultless fetch cycle issues the nine categories as exactly four
sequential groups {news, tech}, {music, billboard, hiphop},
{memes, gaming}, {landscapes, wildlife} with a 1.5-second pause before
each subsequent group, and each category's result is determined by its own
response alone (an error in one category of a group yields that category's
fallback without affecting its siblings). -/
theorem c6_batching (env : FetchEnv) (now : Nat) (st : AppState)
    (h : env.fault = none) :
    (runFetchCycle env now st).2
        = [FetchEvent.fetchGroup [Section.news, Section.tech],
           FetchEvent.wait 1500,
           FetchEvent.fetchGroup
             [Section.music, Section.billboard, Section.hiphop],
           FetchEvent.wait 1500,
           FetchEvent.fetchGroup [Section.memes, Section.gaming],
           FetchEvent.wait 1500,
           FetchEvent.fetchGroup [Section.landscapes, Section.wildlife]] ∧
    ∀ c, (runFetchCycle env now st).1.sets.get c
        = fetchTopicsByCategory (env.resp c) (pfxOf c) (fallbackOf c)
            now := by
  constructor
  · simp [runFetchCycle, h]
  · intro c
    cases c <;> simp [runFetchCycle, h, TopicSets.get, fetchCat]

/-- C6 witness: the concrete trace of a faultless all-error cycle. -/
theorem c6_batching_witness :
    (runFetchCycle ⟨fun _ => Except.error ⟨none, none⟩, none⟩ 0
        ⟨⟨[], [], [], [], [], [], [], [], []⟩, none, none, true, false,
          none⟩).2
      = [FetchEvent.fetchGroup [Section.news, Section.tech],
         FetchEvent.wait 1500,
         FetchEvent.fetchGroup
           [Section.music, Section.billboard, Section.hiphop],
         FetchEvent.wait 1500,
         FetchEvent.fetchGroup [Section.memes, Section.gaming],
         FetchEvent.wait 1500,
         FetchEvent.fetchGroup [Section.landscapes, Section.wildlife]] :=
  (c6_batching ⟨fun _ => Except.error ⟨none, none⟩, none⟩ 0
    ⟨⟨[], [], [], [], [], [], [], [], []⟩, none, none, true, false, none⟩
    rfl).1

/-- C9: a snapshot with timestamp = now, containing all nine categories'
results, is persisted iff the cycle completes all four groups (no stage
faults); a faulted cycle leaves the persisted snapshot and lastUpdated
untouched; and a cycle in which every category's call errors still
completes and persists a full snapshot of the nine fallback lists. -/
theorem c9_snapshot_persistence (env : FetchEnv) (now : Nat)
    (st : AppState) :
    (env.fault = none →
      (runFetchCycle env now st).1.storage
          = some (Except.ok ⟨now,
              ⟨fetchCat env .news now, fetchCat env .tech now,
               fetchCat env .music now, fetchCat env .billboard now,
               fetchCat env .hiphop now, fetchCat env .memes now,
               fetchCat env .gaming now, fetchCat env .landscapes now,
               fetchCat env .wildlife now⟩⟩) ∧
        (runFetchCycle env now st).1.lastUpdated = some now) ∧
    (env.fault ≠ none →
      (runFetchCycle env now st).1.storage = st.storage ∧
      (runFetchCycle env now st).1.lastUpdated = st.lastUpdated) ∧
    ((env.fault = none ∧ ∀ c, ∃ e, env.resp c = Except.error e) →
      (runFetchCycle env now st).1.storage
          = some (Except.ok ⟨now,
              ⟨newsFallback, techFallback, musicFallback,
               billboardFallback, hipHopFallback, memeFallback,
               gamingFallback, landscapeFallback, wildlifeFallback⟩⟩)) := by
  have hstor : env.fault = none →
      (runFetchCycle env now st).1.storage
          = some (Except.ok ⟨now,
              ⟨fetchCat env .news now, fetchCat env .tech now,
               fetchCat env .music now, fetchCat env .billboard now,
               fetchCat env .hiphop now, fetchCat env .memes now,
               fetchCat env .gaming now, fetchCat env .landscapes now,
               fetchCat env .wildlife now⟩⟩) := by
    intro h
    simp [runFetchCycle, h]
  refine ⟨fun h => ⟨hstor h, by simp [runFetchCycle, h]⟩, ?_, ?_⟩
  · intro h
    rcases hf : env.fault with _ | k
    · exact absurd hf h
    · fin_cases k <;> simp [runFetchCycle, hf, catchCycle]
  · rintro ⟨h, hresp⟩
    have hc : ∀ c, fetchCat env c now = fallbackOf c := by
      intro c
      obtain ⟨e, he⟩ := hresp c
      simp only [fetchCat]
      rw [he]
      rfl
    rw [hstor h, hc .news, hc .tech, hc .music, hc .billboard, hc .hiphop,
      hc .memes, hc .gaming, hc .landscapes, hc .wildlife]
    rfl

/-- C9 witness: a faultless cycle whose every category call errors
persists the full fallback snapshot with the cycle's timestamp. -/
theorem c9_snapshot_persistence_witness :
    (runFetchCycle ⟨fun _ => Except.error ⟨some 500, none⟩, none⟩ 5
        ⟨⟨[], [], [], [], [], [], [], [], []⟩, none, none, true, false,
          none⟩).1.storage
      = some (Except.ok ⟨5,
          ⟨newsFallback, techFallback, musicFallback, billboardFallback,
           hipHopFallback, memeFallback, gamingFallback, landscapeFallback,
           wildlifeFallback⟩⟩) :=
  (c9_snapshot_persistence ⟨fun _ => Except.error ⟨some 500, none⟩, none⟩ 5
    ⟨⟨[], [], [], [], [], [], [], [], []⟩, none, none, true, false,
      none⟩).2.2 ⟨rfl, fun _ => ⟨⟨some 500, none⟩, rfl⟩⟩

/-- C5 counterexample: the claim says a fetch cycle that throws at any
stage leaves every previously displayed per-category topic set unchanged.
A cycle faulting at the second batch has already overwritten the news
category (initially empty) with the first batch's result: the error
banner is set, but the news list is no longer the empty list it was. -/
theorem c5_counterexample :
    ((runFetchCycle ⟨fun _ => Except.error ⟨none, none⟩, some 1⟩ 0
        ⟨⟨[], [], [], [], [], [], [], [], []⟩, none, none, true, false,
          none⟩).1.error).isSome = true ∧
    (runFetchCycle ⟨fun _ => Except.error ⟨none, none⟩, some 1⟩ 0
        ⟨⟨[], [], [], [], [], [], [], [], []⟩, none, none, true, false,
          none⟩).1.sets.news ≠ [] := by
  constructor
  · decide
  · decide

/-- C5 (amended): a fetch cycle faulting at batch k is caught: the
user-visible error banner is set, loading/refreshing are cleared, the
persisted snapshot and lastUpdated are untouched, and the in-memory topic
sets of batches at or after k are unchanged — but the categories of
batches completed before k have already been overwritten with that
cycle's results. -/
theorem c5_failure_isolation (env : FetchEnv) (now : Nat) (st : AppState)
    (k : Fin 4) (h : env.fault = some k) :
    (runFetchCycle env now st).1.error
        = some "Failed to load trending topics. Please check your connection." ∧
    (runFetchCycle env now st).1.loading = false ∧
    (runFetchCycle env now st).1.refreshing = false ∧
    (runFetchCycle env now st).1.storage = st.storage ∧
    (runFetchCycle env now st).1.lastUpdated = st.lastUpdated ∧
    (∀ c, (k : Nat) ≤ batchOf c →
      (runFetchCycle env now st).1.sets.get c = st.sets.get c) ∧
    (∀ c, batchOf c < (k : Nat) →
      (runFetchCycle env now st).1.sets.get c = fetchCat env c now) := by
  fin_cases k <;>
    refine ⟨by simp [runFetchCycle, h, catchCycle],
      by simp [runFetchCycle, h, catchCycle],
      by simp [runFetchCycle, h, catchCycle],
      by simp [runFetchCycle, h, catchCycle],
      by simp [runFetchCycle, h, catchCycle], ?_, ?_⟩ <;>
    intro c hc <;>
    cases c <;>
    simp_all [runFetchCycle, catchCycle, batchOf, TopicSets.get, fetchCat]

/-- C5 witness: a cycle faulting at the second batch reports the error
banner. -/
theorem c5_failure_isolation_witness :
    (runFetchCycle ⟨fun _ => Except.error ⟨none, none⟩, some 1⟩ 0
        ⟨⟨[], [], [], [], [], [], [], [], []⟩, none, none, true, false,
          none⟩).1.error
      = some "Failed to load trending topics. Please check your connection." :=
  (c5_failure_isolation ⟨fun _ => Except.error ⟨none, none⟩, some 1⟩ 0
    ⟨⟨[], [], [], [], [], [], [], [], []⟩, none, none, true, false, none⟩
    1 rfl).1

theorem loadTopics_false_miss (env : FetchEnv) (now : Nat)
    (st : AppState)
    (h : ∀ d, st.storage = some (Except.ok d) →
      ¬ (now - d.timestamp < refreshInterval)) :
    loadTopics false env now st
      = runFetchCycle env now
          { st with error := none, loading := true } := by
  rcases hs : st.storage with _ | e
  · simp [loadTopics, hs]
  · rcases e with u | d
    · simp [loadTopics, hs]
    · simp [loadTopics, hs, h d hs]

theorem loadTopics_false_hit (env : FetchEnv) (now : Nat) (st : AppState)
    (d : CachedData) (hd : st.storage = some (Except.ok d))
    (hfresh : now - d.timestamp < refreshInterval) :
    loadTopics false env now st
      = (AppState.mk d.data none (some d.timestamp) false false
          st.storage, []) := by
  simp [loadTopics, hd, hfresh]

/-- C1: load(false) reads the persisted snapshot and returns its topic
sets with no external calls iff a parseable snapshot exists and
now - snapshot.timestamp < 8 hours; a snapshot that is absent, malformed
or stale, or a forced load, runs the four-batch fetch cycle instead. -/
theorem c1_cache_staleness (st : AppState) (env : FetchEnv) (now : Nat) :
    ((loadTopics false env now st).2 = [] ↔
      ∃ d, st.storage = some (Except.ok d) ∧
        now - d.timestamp < refreshInterval) ∧
    (∀ d, st.storage = some (Except.ok d) →
      now - d.timestamp < refreshInterval →
      (loadTopics false env now st).1.sets = d.data ∧
      (loadTopics false env now st).1.lastUpdated = some d.timestamp) ∧
    ((¬ ∃ d, st.storage = some (Except.ok d) ∧
        now - d.timestamp < refreshInterval) →
      loadTopics false env now st
        = runFetchCycle env now
            { st with error := none, loading := true }) ∧
    (loadTopics true env now st
      = runFetchCycle env now { st with error := none }) := by
  refine ⟨⟨?_, ?_⟩, ?_, ?_, by simp [loadTopics]⟩
  · intro htr
    by_contra hnot
    have hmiss : ∀ d, st.storage = some (Except.ok d) →
        ¬ (now - d.timestamp < refreshInterval) := by
      intro d hd hf
      exact hnot ⟨d, hd, hf⟩
    rw [loadTopics_false_miss env now st hmiss] at htr
    exact runFetchCycle_trace_ne_nil env now _ htr
  · rintro ⟨d, hd, hf⟩
    rw [loadTopics_false_hit env now st d hd hf]
  · intro d hd hf
    rw [loadTopics_false_hit env now st d hd hf]
    exact ⟨rfl, rfl⟩
  · intro hnot
    apply loadTopics_false_miss
    intro d hd hf
    exact hnot ⟨d, hd, hf⟩

/-- C1 witness: a concrete 50 ms old snapshot is served from cache. -/
theorem c1_cache_staleness_witness :
    (loadTopics false ⟨fun _ => Except.error ⟨none, none⟩, none⟩ 100
        ⟨⟨[], [], [], [], [], [], [], [], []⟩, none, none, true, false,
          some (Except.ok
            ⟨50, ⟨[⟨"x", "X", "c", "d", none⟩], [], [], [], [], [], [],
              [], []⟩⟩)⟩).1.sets
      = ⟨[⟨"x", "X", "c", "d", none⟩], [], [], [], [], [], [], [], []⟩ :=
  ((c1_cache_staleness
      ⟨⟨[], [], [], [], [], [], [], [], []⟩, none, none, true, false,
        some (Except.ok
          ⟨50, ⟨[⟨"x", "X", "c", "d", none⟩], [], [], [], [], [], [], [],
            []⟩⟩)⟩
      ⟨fun _ => Except.error ⟨none, none⟩, none⟩ 100).2.1
    ⟨50, ⟨[⟨"x", "X", "c", "d", none⟩], [], [], [], [], [], [], [], []⟩⟩
    rfl (by decide)).1

end Theorems

end TrendPulse
